import Mathlib

/-!
Verification of the model-routing / failover layer and the query-resolution
pipeline of the FGO-agent repository.

The Lean definitions below are shallow embeddings of the Python source:

* `chatRun`        embeds `ModelRouter.chat` (non-streaming branch), llm/router.py.
* `streamRun`      embeds `stream_failover_generator` (streaming branch), llm/router.py.
* `embedRun`       embeds `ModelRouter.embed`, llm/router.py.
* `monitorChatRun` embeds the `monitor_llm_call` wrapper (non-stream paths), llm/monitor.py.
* `calculate_retrieval_quality`, `rerank` and friends embed src/tools/rag/rag.py.
* `rag_evaluation_node`, `end_node` and the retry iteration embed
  src/agent/nodes.py and src/agent/graph.py.

Backend adapters, the cross-encoder model and the database are external
effects; they are modelled as explicit function parameters describing their
observable outcome (raise / return value / stream behaviour), which is
exactly what the routing code branches on.
-/

/-- Status field of a failover event dict in llm/router.py
(`"skipped"`, `"success"`, `"failed"`). -/
inductive FailoverStatus where
  | skipped
  | success
  | failed
deriving DecidableEq, Repr

/-- One failover event dict as appended by `ModelRouter.chat` /
`stream_failover_generator`.  The Python dicts carry different key sets per
status; absent keys are `none` here:
skipped events have no `physical_model_name` and no `error`,
success events have no `error` and no `reason`,
failed events have no `reason`. -/
structure FailoverEvent where
  instance_name : String
  physical_model_name : Option String
  status : FailoverStatus
  error : Option String
  reason : Option String
deriving DecidableEq, Repr

/-- The skipped event literal from router.py
(`status: "skipped", reason: "适配器未找到"`). -/
def mkSkippedEvent (inst : String) : FailoverEvent :=
  { instance_name := inst
  , physical_model_name := none
  , status := .skipped
  , error := none
  , reason := some "适配器未找到" }

/-- The success event literal from router.py. -/
def mkSuccessEvent (inst phys : String) : FailoverEvent :=
  { instance_name := inst
  , physical_model_name := some phys
  , status := .success
  , error := none
  , reason := none }

/-- The failed event literal from router.py (`error: str(e)`). -/
def mkFailedEvent (inst phys err : String) : FailoverEvent :=
  { instance_name := inst
  , physical_model_name := some phys
  , status := .failed
  , error := some err
  , reason := none }

/-- Opaque payload returned by a successful `adapter.chat` call; its internal
structure is irrelevant to the routing logic. -/
abbrev ChatRes := String

/-- Decidable equality for adapter outcomes, so concrete runs can be
evaluated by `decide`. -/
instance {ε α : Type} [DecidableEq ε] [DecidableEq α] : DecidableEq (Except ε α) :=
  fun a b =>
  match a, b with
  | Except.ok x, Except.ok y =>
    if h : x = y then .isTrue (congrArg Except.ok h)
    else .isFalse (fun hc => h (Except.ok.inj hc))
  | Except.error x, Except.error y =>
    if h : x = y then .isTrue (congrArg Except.error h)
    else .isFalse (fun hc => h (Except.error.inj hc))
  | Except.ok _, Except.error _ => .isFalse (fun hc => Except.noConfusion hc)
  | Except.error _, Except.ok _ => .isFalse (fun hc => Except.noConfusion hc)

/-- Result of one run of the non-streaming failover loop of
`ModelRouter.chat`.  `outcome = some (result, instance, physical)` is the
value returned by the Python function (together with `events`);
`outcome = none` means every instance was exhausted and the all-failed
exception was raised with `lastErr` as `last_exception`.  `invoked` records
the instances whose adapter was actually called, in call order. -/
structure ChatRun where
  outcome : Option (ChatRes × String × String)
  events : List FailoverEvent
  invoked : List String
  lastErr : Option String
deriving DecidableEq, Repr

/-- The failover loop of `ModelRouter.chat` (non-streaming branch,
router.py lines 125-166).  `adapters inst = none` means
`self.adapters.get(inst)` found no adapter; `some (Except.ok r)` means the
adapter call returns `r`; `some (Except.error e)` means it raises with
message `e`.  `phys` is `model_config['instance_model_names']`. -/
def chatRunAux (adapters : String → Option (Except String ChatRes))
    (phys : String → String) :
    List String → List FailoverEvent → List String → Option String → ChatRun
  | [], evs, inv, last => ⟨none, evs, inv, last⟩
  | n :: rest, evs, inv, last =>
    match adapters n with
    | none =>
        chatRunAux adapters phys rest (evs ++ [mkSkippedEvent n]) inv last
    | some (Except.ok r) =>
        ⟨some (r, n, phys n), evs ++ [mkSuccessEvent n (phys n)], inv ++ [n], last⟩
    | some (Except.error e) =>
        chatRunAux adapters phys rest (evs ++ [mkFailedEvent n (phys n) e])
          (inv ++ [n]) (some e)

/-- Entry point of the non-streaming failover loop: empty accumulators,
`last_exception = None`. -/
def chatRun (adapters : String → Option (Except String ChatRes))
    (phys : String → String) (names : List String) : ChatRun :=
  chatRunAux adapters phys names [] [] none

/-- Message of the exception raised when every instance failed
(router.py line 166); Python formats `None` as `"None"`. -/
def mkAllFailedMsg (last : Option String) : String :=
  "所有实例均调用失败。最后一次错误: " ++ (match last with
    | some e => e
    | none => "None")

/-- Observable behaviour of one instance's adapter in streaming mode.
`setupFail e`: `await adapter.chat(..., stream=True)` raises `e` before any
chunk exists.  `run chunks err`: the call returns a generator that yields
`chunks`; `err = none` means the generator then ends normally, `err = some e`
means it raises `e` after the last listed chunk. -/
inductive StreamBeh where
  | setupFail (e : String)
  | run (chunks : List String) (err : Option String)
deriving DecidableEq

/-- Result of draining `stream_failover_generator` (router.py lines 172-223).
`chunks` are all chunks yielded to the caller (across every instance tried),
`errorOut = some m` means the generator finally raised with message `m`
(after the listed chunks), `invoked` records the instances whose adapter was
called, in order. -/
structure StreamRun where
  chunks : List String
  events : List FailoverEvent
  invoked : List String
  errorOut : Option String
deriving DecidableEq, Repr

/-- Message of the exception raised when every streaming instance failed
(router.py line 223). -/
def mkStreamAllFailedMsg (last : Option String) : String :=
  "所有流式实例均调用失败。最后一次错误: " ++ (match last with
    | some e => e
    | none => "None")

/-- The body of `stream_failover_generator`.  Note that in the source the
`try` block encloses both the stream setup and the `async for ... yield`
loop, so an exception raised by the adapter stream *after* chunks were
already yielded is caught by the same `except` and the loop moves on to the
next instance; a success event was appended as soon as the generator was
obtained, so a mid-stream failure leaves both a success and a failed event
for that instance. -/
def streamRunAux (adapters : String → Option StreamBeh) (phys : String → String) :
    List String → List String → List FailoverEvent → List String → Option String →
    StreamRun
  | [], cs, evs, inv, last => ⟨cs, evs, inv, some (mkStreamAllFailedMsg last)⟩
  | n :: rest, cs, evs, inv, last =>
    match adapters n with
    | none =>
        streamRunAux adapters phys rest cs (evs ++ [mkSkippedEvent n]) inv last
    | some (.setupFail e) =>
        streamRunAux adapters phys rest cs (evs ++ [mkFailedEvent n (phys n) e])
          (inv ++ [n]) (some e)
    | some (.run chunks none) =>
        ⟨cs ++ chunks, evs ++ [mkSuccessEvent n (phys n)], inv ++ [n], none⟩
    | some (.run chunks (some e)) =>
        streamRunAux adapters phys rest (cs ++ chunks)
          (evs ++ [mkSuccessEvent n (phys n), mkFailedEvent n (phys n) e])
          (inv ++ [n]) (some e)

/-- Entry point of the streaming failover generator. -/
def streamRun (adapters : String → Option StreamBeh) (phys : String → String)
    (names : List String) : StreamRun :=
  streamRunAux adapters phys names [] [] [] none

/-- The failover loop of `ModelRouter.embed` (router.py lines 233-274).
In the source, instance lookup uses `instance_model_names.get`, so a missing
physical name skips the instance (`physOpt`).  When the loop exhausts all
instances no exception escapes the `try` block (the adapter errors were
caught by the inner `try`), so the dead `except:` clause never fires and the
function falls through, returning Python `None`: hence `Option ChatRes` with
`none` for the all-failed case. -/
def embedRun (adapters : String → Option (Except String ChatRes))
    (physOpt : String → Option String) : List String → Option ChatRes
  | [] => none
  | n :: rest =>
    match adapters n, physOpt n with
    | none, _ => embedRun adapters physOpt rest
    | some _, none => embedRun adapters physOpt rest
    | some (Except.ok r), some _ => some r
    | some (Except.error _), some _ => embedRun adapters physOpt rest

/-- A persisted `Logs` row as built by `monitor_llm_call` (monitor.py);
only the fields the claims are about.  `failover_events` mirrors the
`failover_events` column: `none` when the monitor does not set it
(the `Logs` dataclass defaults it to `None`). -/
structure LogsRec where
  status : String
  is_stream : Bool
  failover_events : Option (List FailoverEvent)
  error_message : Option String
deriving DecidableEq, Repr

/-- What the caller of the monitored function observes:
the returned value, or the message of the exception that escaped. -/
inductive CallOutcome (α : Type) where
  | ok (a : α)
  | err (e : String)
deriving DecidableEq, Repr

/-- The value/exception outcome of the wrapped `ModelRouter.chat`
(non-streaming): on success the Python function returns the tuple
`(result, instance_name, physical_model_name, failover_events)`,
on exhaustion it raises `mkAllFailedMsg`. -/
def chatCallOutcome (run : ChatRun) :
    Except String (ChatRes × String × String × List FailoverEvent) :=
  match run.outcome with
  | some (r, inst, phys) => Except.ok (r, inst, phys, run.events)
  | none => Except.error (mkAllFailedMsg run.lastErr)

/-- The failure record built in the outer `except` of `monitor_llm_call`
(monitor.py lines 176-192): `status="failure"`, no `failover_events`
(the field is simply not passed, so the dataclass default `None` stands),
`error_message = "所有实例均失败: " ++ e` (the traceback suffix is omitted
from the model). -/
def mkFailureRec (isStream : Bool) (e : String) : LogsRec :=
  { status := "failure"
  , is_stream := isStream
  , failover_events := none
  , error_message := some ("所有实例均失败: " ++ e) }

/-- The success record built on the non-stream success path
(monitor.py lines 131-174): `status="success"` with the failover events
serialized into the record. -/
def mkSuccessRec (events : List FailoverEvent) : LogsRec :=
  { status := "success"
  , is_stream := false
  , failover_events := some events
  , error_message := none }

/-- The `monitor_llm_call` wrapper around a non-streaming chat call
(monitor.py).  `save rec = none` models `log_dal.save_log(rec)` (together
with the model lookup persisted just before it) succeeding; `save rec =
some e` models persistence raising `e`.  Control flow of the source:
the whole body sits in one `try`; any exception — the router's own
all-failed error *or* a persistence error on the success path — lands in
the outer `except`, which writes a failure record and then re-raises;
if writing the failure record itself raises, that new exception escapes
instead.  Returns the caller-visible outcome and the list of records that
were successfully persisted. -/
def monitorChatRun (save : LogsRec → Option String) (run : ChatRun) :
    CallOutcome (ChatRes × String × String × List FailoverEvent) × List LogsRec :=
  match chatCallOutcome run with
  | Except.ok t =>
    let rec1 := mkSuccessRec run.events
    match save rec1 with
    | none => (.ok t, [rec1])
    | some e1 =>
      let rec2 := mkFailureRec false e1
      match save rec2 with
      | none => (.err e1, [rec2])
      | some e2 => (.err e2, [])
  | Except.error e =>
    let rec2 := mkFailureRec false e
    match save rec2 with
    | none => (.err e, [rec2])
    | some e2 => (.err e2, [])

/-- Monitored non-streaming chat: the decorator applied to the router loop. -/
def monitoredChat (adapters : String → Option (Except String ChatRes))
    (phys : String → String) (names : List String)
    (save : LogsRec → Option String) :
    CallOutcome (ChatRes × String × String × List FailoverEvent) × List LogsRec :=
  monitorChatRun save (chatRun adapters phys names)

/-- A retrieved document as produced by `RAGRetriever.retrieve`
(rag.py lines 100-114): `content` and the similarity `score` are always
present; `ce_score` / `rerank_score` are added by the rerank stage.
The `id` / `metadata` fields are only used for logging and are omitted. -/
structure Doc where
  content : String
  score : ℚ
  ce_score : Option ℚ := none
  rerank_score : Option ℚ := none
deriving DecidableEq, Repr

/-- `doc.get('rerank_score', doc.get('score', 0.0))` — the sort key used in
both rerank methods (rag.py lines 205-209, 268-272) and the per-document
score used by `calculate_retrieval_quality` (rag.py lines 412-415). -/
def docKey (d : Doc) : ℚ :=
  d.rerank_score.getD d.score

/-- `avg_score` of `calculate_retrieval_quality` (rag.py line 418). -/
def meanScore (docs : List Doc) : ℚ :=
  (docs.map docKey).sum / (docs.length : ℚ)

/-- `count_factor = min(len(documents) / 5.0, 1.0)` (rag.py line 421). -/
def countFactor (docs : List Doc) : ℚ :=
  min ((docs.length : ℚ) / 5) 1

/-- `distribution_factor` (rag.py lines 424-429): for two or more scores
`min((top_score - others_avg) * 2, 1.0)` — note there is no lower clamp at
0 in the source — and `1.0` for a single document. -/
def distFactor (docs : List Doc) : ℚ :=
  match docs.map docKey with
  | [] => 1
  | [_] => 1
  | s :: rest => min ((s - rest.sum / (rest.length : ℚ)) * 2) 1

/-- `calculate_retrieval_quality` (rag.py lines 390-444):
`0` for the empty list, otherwise
`avg_score * 0.6 + count_factor * 0.2 + distribution_factor * 0.2`. -/
def calculate_retrieval_quality (docs : List Doc) : ℚ :=
  if docs.isEmpty then 0
  else meanScore docs * (6/10) + countFactor docs * (2/10) + distFactor docs * (2/10)

/-- Modelled from the spec: the quality formula as the spec states it
(spec.md §4.4), whose distribution term is `clamp((top_score - mean(rest))
* 2, 0, 1)`, i.e. clamped on *both* sides.  The single-document case is not
specified; it follows the code's `1`.  Used only to compare the spec's
formula against the source's `calculate_retrieval_quality`. -/
def specQuality (docs : List Doc) : ℚ :=
  if docs.isEmpty then 0
  else
    let dist := match docs.map docKey with
      | [] => 1
      | [_] => 1
      | s :: rest => max 0 (min ((s - rest.sum / (rest.length : ℚ)) * 2) 1)
    meanScore docs * (6/10) + countFactor docs * (2/10) + dist * (2/10)

/-- Character-list prefix test (Boolean), used to express Python's
substring operator `term in content`. -/
def chPre : List Char → List Char → Bool
  | [], _ => true
  | _ :: _, [] => false
  | a :: as, b :: bs => a = b && chPre as bs

/-- Character-list substring test (Boolean): Python's `term in content`. -/
def chSub (t : List Char) : List Char → Bool
  | [] => chPre t []
  | b :: bs => chPre t (b :: bs) || chSub t bs

/-- Query terms of `_rerank_by_keyword` (rag.py lines 237-245):
lower-case, whitespace-split, single-character terms dropped, de-duplicated
(`set(...)`); if nothing is left, the whole lowered query is the one term. -/
def queryTerms (query : String) : List String :=
  let ts := ((query.toLower.splitOn " ").filter (fun t => t.length > 1)).dedup
  if ts.isEmpty then [query.toLower] else ts

/-- `keyword_hits / len(query_terms)` for one document
(rag.py lines 248-255). -/
def keywordScore (terms : List String) (content : String) : ℚ :=
  ((terms.filter (fun t => chSub t.toList content.toLower.toList)).length : ℚ) /
    (terms.length : ℚ)

/-- Python's stable `sorted(documents, key=..., reverse=True)`
(rag.py lines 205-209 and 268-272): a stable sort, descending in `docKey`. -/
def sortByRerankDesc (docs : List Doc) : List Doc :=
  docs.mergeSort (fun a b => decide (docKey b ≤ docKey a))

/-- The per-document update of `_rerank_by_keyword` (rag.py lines 248-259):
`rerank_score = score * 0.7 + keyword_score * 0.3`; `ce_score` untouched. -/
def keywordAug (terms : List String) (d : Doc) : Doc :=
  { d with rerank_score := some (d.score * (7/10) + keywordScore terms d.content * (3/10)) }

/-- The per-document update of `_rerank_by_crossencoder` (rag.py lines
190-196): `ce_score` is the normalized relevance, `rerank_score = score *
0.3 + ce_score * 0.7`. -/
def ceAug (ce : String → String → ℚ) (query : String) (d : Doc) : Doc :=
  { d with ce_score := some (ce query d.content)
         , rerank_score := some (d.score * (3/10) + ce query d.content * (7/10)) }

/-- `_rerank_by_keyword` (rag.py lines 219-275): every document gets
`rerank_score = score * 0.7 + keyword_score * 0.3` (and `ce_score` is left
untouched), then the list is sorted by descending rerank score. -/
def rerankByKeyword (query : String) (docs : List Doc) : List Doc :=
  sortByRerankDesc (docs.map (keywordAug (queryTerms query)))

/-- `_rerank_by_crossencoder` (rag.py lines 157-217).  The cross-encoder is
external ML: `ceModel = none` models `self.cross_encoder is None` (falls
back to keyword reranking), and `some ce` models a loaded model whose
sigmoid-normalized relevance for a `(query, content)` pair is `ce query
content`.  Every document gets `ce_score` and
`rerank_score = score * 0.3 + ce_score * 0.7`, then the list is sorted by
descending rerank score. -/
def rerankByCrossencoder (ceModel : Option (String → String → ℚ))
    (query : String) (docs : List Doc) : List Doc :=
  match ceModel with
  | none => rerankByKeyword query docs
  | some ce => sortByRerankDesc (docs.map (ceAug ce query))

/-- `RAGRetriever.rerank` (rag.py lines 123-155): empty input returns `[]`;
`"crossencoder"` and `"keyword"` dispatch to the two rerankers; `"score"`
and any unknown method return the input unchanged. -/
def rerank (ceModel : Option (String → String → ℚ)) (query : String)
    (docs : List Doc) (method : String) : List Doc :=
  if docs.isEmpty then []
  else if method = "crossencoder" then rerankByCrossencoder ceModel query docs
  else if method = "keyword" then rerankByKeyword query docs
  else docs

/-- Projection forgetting the two fields the rerank stage may write; used to
state that reranking changes nothing else about a document. -/
def stripDoc (d : Doc) : Doc :=
  { d with ce_score := none, rerank_score := none }

/-- Output of a rerank stage is in non-increasing `docKey` order. -/
def SortedDescByKey (docs : List Doc) : Prop :=
  docs.Chain' (fun a b => docKey b ≤ docKey a)

/-- `MAX_RETRY = 2` (nodes.py line 373). -/
def MAX_RETRY : Nat := 2

/-- The `evaluation_result` value written by `rag_evaluation_node`. -/
inductive EvalVerdict where
  | pass
  | rewrite
deriving DecidableEq, Repr

/-- Observable behaviour of the LLM evaluator call inside
`rag_evaluation_node` (nodes.py lines 452-540):
`parsed r reason` — the chat call returned and its JSON parsed, with
`parsed.get("result", "pass") = r` (an arbitrary string) and reason text;
`parseError` — the chat call returned but `json.loads` raised
`JSONDecodeError`;
`callError` — the chat call itself raised. -/
inductive EvalLLMOutcome where
  | parsed (result : String) (reason : String)
  | parseError
  | callError

/-- The state update returned by `rag_evaluation_node`; the source's
`evaluation_reason` strings embed a formatted score, which is modelled by
the plain message text. -/
structure EvalUpdate where
  evaluation_result : EvalVerdict
  retrieval_score : ℚ
  retry_count : Nat
  evaluation_reason : Option String
deriving DecidableEq, Repr

/-- `rag_evaluation_node` (nodes.py lines 357-540).  Branches, in source
order: no documents (rewrite below the retry cap, else forced pass);
LLM verdict parsed (rewrite only when the verdict string is "rewrite" and
the cap is not reached); JSON parse failure (unconditional pass); LLM call
failure (numeric fallback: pass when quality > 0.6, else rewrite below the
cap, else forced pass). -/
def rag_evaluation_node (docs : List Doc) (retry_count : Nat)
    (llm : EvalLLMOutcome) : EvalUpdate :=
  if docs.isEmpty then
    if retry_count < MAX_RETRY then
      { evaluation_result := .rewrite
      , retrieval_score := 0
      , retry_count := retry_count + 1
      , evaluation_reason := some "未检索到任何相关文档，建议补全从者全名或明确查询的数据类型（技能/宝具/资料/素材）" }
    else
      { evaluation_result := .pass, retrieval_score := 0
      , retry_count := retry_count, evaluation_reason := none }
  else
    let q := calculate_retrieval_quality docs
    match llm with
    | .parsed r reason =>
      if r = "rewrite" ∧ retry_count < MAX_RETRY then
        { evaluation_result := .rewrite, retrieval_score := q
        , retry_count := retry_count + 1, evaluation_reason := some reason }
      else
        { evaluation_result := .pass, retrieval_score := q
        , retry_count := retry_count, evaluation_reason := none }
    | .parseError =>
        { evaluation_result := .pass, retrieval_score := q
        , retry_count := retry_count, evaluation_reason := none }
    | .callError =>
      if q > 6/10 then
        { evaluation_result := .pass, retrieval_score := q
        , retry_count := retry_count, evaluation_reason := none }
      else if retry_count < MAX_RETRY then
        { evaluation_result := .rewrite, retrieval_score := q
        , retry_count := retry_count + 1
        , evaluation_reason := some "检索质量分数较低，文档相关性不足，建议改写查询" }
      else
        { evaluation_result := .pass, retrieval_score := q
        , retry_count := retry_count, evaluation_reason := none }

/-- `route_after_evaluation` (graph.py lines 42-60): `"rewrite"` loops back
to the classify node, anything else goes to generation. -/
def route_after_evaluation (v : EvalVerdict) : String :=
  if v = .rewrite then "query_classify" else "llm_generate"

/-- The retry-count handling of `query_classify_node` (nodes.py lines
73, 247-279): it reads `state.get("retry_count", 0) or 0` and writes
`retry_count = 0` only when that value is 0, otherwise it leaves the field
untouched — so, as a `Nat`, the classify step preserves the retry count. -/
def classifyRetryOut (r : Nat) : Nat :=
  if r = 0 then 0 else r

/-- One Evaluate cycle environment: the documents the knowledge-base step
put into the state and the evaluator-LLM behaviour for that cycle. -/
abbrev EvalEnv := Nat → List Doc × EvalLLMOutcome

/-- `retry_count` at the entry of the n-th Evaluate cycle, for an arbitrary
environment: the initial state has no `retry_count` (read as 0), and each
cycle routes the evaluation's retry count through the classify node of the
next iteration. -/
def retryAt (env : EvalEnv) : Nat → Nat
  | 0 => 0
  | n + 1 =>
    classifyRetryOut ((rag_evaluation_node (env n).1 (retryAt env n) (env n).2).retry_count)

/-- `evaluation_result` produced by the n-th Evaluate cycle. -/
def resultAt (env : EvalEnv) (n : Nat) : EvalVerdict :=
  (rag_evaluation_node (env n).1 (retryAt env n) (env n).2).evaluation_result

/-- An environment whose retrieval is always empty and whose evaluator
never parses: used to exercise the retry bound concretely. -/
def envAlwaysEmpty : EvalEnv := fun _ => ([], .parseError)

/-- The agent state fields (state.py `AgentState`): the conversation plus
the eight intermediate fields.  `messages` holds the message contents. -/
structure AgentStateRec where
  messages : List String
  query_classification : Option String
  retry_count : Option Nat
  original_query : Option String
  rewritten_query : Option String
  retrieved_docs : Option (List Doc)
  retrieval_score : Option ℚ
  evaluation_result : Option EvalVerdict
  evaluation_reason : Option String
deriving DecidableEq, Repr

/-- `end_node` (nodes.py lines 921-934) as a LangGraph state update: it
appends the canned reply and sets exactly three fields to `None` —
`query_classification`, `retry_count`, `original_query`; the remaining five
intermediate fields are not mentioned in the returned dict and therefore
keep their values. -/
def end_node (s : AgentStateRec) : AgentStateRec :=
  { s with
    messages := s.messages ++ ["如有其他问题，请随时询问！"]
  , query_classification := none
  , retry_count := none
  , original_query := none }

/-- The terminal update shared by every return path of `llm_generate_node`
and `web_search_node` (nodes.py lines 677-689 and the sibling returns):
append the answer and set all eight intermediate fields to `None`. -/
def terminalClearUpdate (s : AgentStateRec) (answer : String) : AgentStateRec :=
  { messages := s.messages ++ [answer]
  , query_classification := none
  , retry_count := none
  , original_query := none
  , rewritten_query := none
  , retrieved_docs := none
  , retrieval_score := none
  , evaluation_result := none
  , evaluation_reason := none }

/-- Witness fixture: two-instance adapter map — `"a"` raises, `"b"`
answers, everything else has no adapter. -/
def wChatAdapters : String → Option (Except String ChatRes) := fun n =>
  if n = "a" then some (Except.error "ea")
  else if n = "b" then some (Except.ok "r")
  else none

/-- Witness fixture: physical model names. -/
def wPhys : String → String := fun n => n ++ "-m"

/-- Witness fixture: constant physical model name. -/
def wPhysM : String → String := fun _ => "m"

/-- Witness fixture: adapters for `"a"` and `"b"` that both raise. -/
def wFailAdapters : String → Option (Except String ChatRes) := fun n =>
  if n = "a" then some (Except.error "e1")
  else if n = "b" then some (Except.error "e2")
  else none

/-- Witness fixture: the error message raised by each `wFailAdapters`
instance. -/
def wErrOf : String → String := fun n => if n = "a" then "e1" else "e2"

/-- Fixture: streaming adapters — `"i1"` yields one chunk and then raises,
`"i2"` yields one chunk and completes. -/
def wStreamAdapters : String → Option StreamBeh := fun n =>
  if n = "i1" then some (.run ["a"] (some "boom"))
  else if n = "i2" then some (.run ["b"] none)
  else none

/-- Fixture: a router run in which every instance failed. -/
def cexRunFail : ChatRun :=
  { outcome := none
  , events := [mkFailedEvent "i" "m" "boom"]
  , invoked := ["i"]
  , lastErr := some "boom" }

/-- Witness fixture: persistence that always succeeds. -/
def saveOk : LogsRec → Option String := fun _ => none

/-- Counterexample fixture: persistence that always raises. -/
def saveAlwaysFail : LogsRec → Option String := fun _ => some "db down"

/-- Witness fixture: persistence that raises only for success records. -/
def saveFailOnSuccessRec : LogsRec → Option String := fun rec =>
  if rec.status = "success" then some "db down" else none

/-- Fixture: a router run in which instance `"i"` answered directly. -/
def cexRunOk : ChatRun :=
  { outcome := some ("r", "i", "m")
  , events := [mkSuccessEvent "i" "m"]
  , invoked := ["i"]
  , lastErr := none }

/-- Fixture: a fully-populated mid-resolution agent state, as left behind
when a retry's re-classification routes to the end node. -/
def c7state : AgentStateRec :=
  { messages := ["谢谢"]
  , query_classification := some "end"
  , retry_count := some 1
  , original_query := some "她的宝具"
  , rewritten_query := some "玛修的宝具"
  , retrieved_docs := some [{ content := "doc", score := 1/2, rerank_score := some (3/5) }]
  , retrieval_score := some (1/2)
  , evaluation_result := some .rewrite
  , evaluation_reason := some "相关性不足" }

/-- Fixture: one low-relevance document (quality 0.3 < 0.6). -/
def lowDoc : Doc := { content := "x", score := 1/10 }

/-- Fixture documents with distinct rerank scores in ascending order. -/
def docLow : Doc := { content := "x", score := 0, rerank_score := some 0 }

/-- See `docLow`. -/
def docHigh : Doc := { content := "y", score := 0, rerank_score := some 1 }

/-! ### Helper lemmas -/

/-- `chatRunAux` only ever appends to its event/invocation accumulators, so
a run from arbitrary accumulators is the run from empty accumulators with
those prefixes glued on. -/
theorem chatRunAux_acc (a : String → Option (Except String ChatRes))
    (p : String → String) :
    ∀ (names : List String) (evs : List FailoverEvent) (inv : List String)
      (last : Option String),
    chatRunAux a p names evs inv last =
      { outcome := (chatRunAux a p names [] [] last).outcome
      , events := evs ++ (chatRunAux a p names [] [] last).events
      , invoked := inv ++ (chatRunAux a p names [] [] last).invoked
      , lastErr := (chatRunAux a p names [] [] last).lastErr } := by
  intro names
  induction names with
  | nil => intro evs inv last; simp [chatRunAux]
  | cons n rest ih =>
    intro evs inv last
    cases h : a n with
    | none =>
      simp only [chatRunAux, h, List.nil_append, List.append_eq]
      rw [ih (evs ++ [mkSkippedEvent n]) inv last, ih [mkSkippedEvent n] [] last]
      simp
    | some x =>
      cases x with
      | ok r => simp [chatRunAux, h]
      | error e =>
        simp only [chatRunAux, h, List.nil_append, List.append_eq]
        rw [ih (evs ++ [mkFailedEvent n (p n) e]) (inv ++ [n]) (some e),
            ih [mkFailedEvent n (p n) e] [n] (some e)]
        simp

/-- A failing prefix followed by a succeeding instance: the loop returns the
success, with one failed event per failing instance followed by the success
event, and invokes exactly the prefix and the succeeding instance. -/
theorem chatRunAux_fail_prefix (a : String → Option (Except String ChatRes))
    (p : String → String) (s : String) (rest : List String) (r : ChatRes)
    (errOf : String → String) (hs : a s = some (Except.ok r)) :
    ∀ (pre : List String) (evs : List FailoverEvent) (inv : List String)
      (last : Option String),
    (∀ n ∈ pre, a n = some (Except.error (errOf n))) →
    (chatRunAux a p (pre ++ s :: rest) evs inv last).outcome = some (r, s, p s) ∧
    (chatRunAux a p (pre ++ s :: rest) evs inv last).events =
      evs ++ pre.map (fun n => mkFailedEvent n (p n) (errOf n)) ++
        [mkSuccessEvent s (p s)] ∧
    (chatRunAux a p (pre ++ s :: rest) evs inv last).invoked =
      inv ++ pre ++ [s] := by
  intro pre
  induction pre with
  | nil => intro evs inv last _; simp [chatRunAux, hs]
  | cons n pre ih =>
    intro evs inv last hfail
    have hn : a n = some (Except.error (errOf n)) := hfail n (by simp)
    have htail : ∀ m ∈ pre, a m = some (Except.error (errOf m)) := by
      intro m hm; exact hfail m (by simp [hm])
    simp only [List.cons_append, chatRunAux, hn, List.append_eq]
    have h3 := ih (evs ++ [mkFailedEvent n (p n) (errOf n)]) (inv ++ [n])
      (some (errOf n)) htail
    refine ⟨h3.1, ?_, ?_⟩
    · rw [h3.2.1]; simp
    · rw [h3.2.2]; simp

/-- When every instance in the (nonempty) list fails, the loop exhausts it:
no outcome, one failed event per instance, every instance invoked, and
`last_exception` is the last instance's error. -/
theorem chatRunAux_all_fail (a : String → Option (Except String ChatRes))
    (p : String → String) (errOf : String → String) :
    ∀ (names : List String) (nlast : String) (evs : List FailoverEvent)
      (inv : List String) (last : Option String),
    (∀ n ∈ names ++ [nlast], a n = some (Except.error (errOf n))) →
    chatRunAux a p (names ++ [nlast]) evs inv last =
      { outcome := none
      , events := evs ++ (names ++ [nlast]).map
          (fun n => mkFailedEvent n (p n) (errOf n))
      , invoked := inv ++ (names ++ [nlast])
      , lastErr := some (errOf nlast) } := by
  intro names
  induction names with
  | nil =>
    intro nlast evs inv last hfail
    have h : a nlast = some (Except.error (errOf nlast)) := hfail nlast (by simp)
    simp [chatRunAux, h]
  | cons n rest ih =>
    intro nlast evs inv last hfail
    have hn : a n = some (Except.error (errOf n)) := hfail n (by simp)
    have htail : ∀ m ∈ rest ++ [nlast], a m = some (Except.error (errOf m)) := by
      intro m hm; exact hfail m (by simp at hm ⊢; tauto)
    simp only [List.cons_append, chatRunAux, hn, List.append_eq]
    rw [ih nlast (evs ++ [mkFailedEvent n (p n) (errOf n)]) (inv ++ [n])
      (some (errOf n)) htail]
    simp

/-- `rag_evaluation_node` increments the retry count only when it is below
the cap, and otherwise returns it unchanged, so the cap is preserved. -/
theorem rag_evaluation_node_retry_le (docs : List Doc) (r : Nat)
    (llm : EvalLLMOutcome) (h : r ≤ MAX_RETRY) :
    (rag_evaluation_node docs r llm).retry_count ≤ MAX_RETRY := by
  unfold rag_evaluation_node
  cases llm <;> simp only [] <;> split_ifs <;> simp_all [MAX_RETRY] <;> omega

/-- A `rewrite` verdict is only produced below the retry cap, and always
comes with the incremented retry count. -/
theorem rag_evaluation_node_rewrite_inv (docs : List Doc) (r : Nat)
    (llm : EvalLLMOutcome)
    (h : (rag_evaluation_node docs r llm).evaluation_result = .rewrite) :
    r < MAX_RETRY ∧ (rag_evaluation_node docs r llm).retry_count = r + 1 := by
  unfold rag_evaluation_node at h ⊢
  cases llm <;> simp only [] at h ⊢ <;> split_ifs at h ⊢ <;> simp_all

/-- At or above the retry cap every branch of `rag_evaluation_node`
produces `pass`. -/
theorem rag_evaluation_node_cap (docs : List Doc) (r : Nat)
    (llm : EvalLLMOutcome) (h : MAX_RETRY ≤ r) :
    (rag_evaluation_node docs r llm).evaluation_result = .pass := by
  unfold rag_evaluation_node
  cases llm <;> simp only [] <;> split_ifs <;> simp_all [MAX_RETRY] <;> omega

/-- The classify node preserves the retry count. -/
theorem classifyRetryOut_eq (r : Nat) : classifyRetryOut r = r := by
  unfold classifyRetryOut; split <;> omega

/-- Forgetting the rerank fields commutes with the keyword augmentation. -/
theorem stripDoc_keywordAug (terms : List String) (d : Doc) :
    stripDoc (keywordAug terms d) = stripDoc d := rfl

/-- Forgetting the rerank fields commutes with the cross-encoder
augmentation. -/
theorem stripDoc_ceAug (ce : String → String → ℚ) (q : String) (d : Doc) :
    stripDoc (ceAug ce q d) = stripDoc d := rfl

/-- The stable descending sort permutes its input. -/
theorem sortByRerankDesc_perm (docs : List Doc) :
    (sortByRerankDesc docs).Perm docs :=
  List.mergeSort_perm docs _

/-- The stable descending sort produces a list in non-increasing key order. -/
theorem sortByRerankDesc_sorted (docs : List Doc) :
    SortedDescByKey (sortByRerankDesc docs) := by
  have hp : List.Pairwise
      (fun a b => (decide (docKey b ≤ docKey a)) = true) (sortByRerankDesc docs) := by
    apply List.sorted_mergeSort
    · intro a b c h1 h2
      simp only [decide_eq_true_eq] at h1 h2 ⊢
      exact le_trans h2 h1
    · intro a b
      rcases le_total (docKey b) (docKey a) with h | h <;> simp [h]
  exact List.Pairwise.chain' (hp.imp (fun h => by simpa using h))

/-- The keyword reranker permutes the (strip-projected) input. -/
theorem rerankByKeyword_perm_strip (query : String) (docs : List Doc) :
    ((rerankByKeyword query docs).map stripDoc).Perm (docs.map stripDoc) := by
  unfold rerankByKeyword
  refine ((sortByRerankDesc_perm
    (docs.map (keywordAug (queryTerms query)))).map stripDoc).trans ?_
  rw [List.map_map]
  apply List.Perm.of_eq
  apply List.map_congr_left
  intro d _
  exact stripDoc_keywordAug (queryTerms query) d

/-- The cross-encoder reranker permutes the (strip-projected) input. -/
theorem rerankByCrossencoder_perm_strip (ceModel : Option (String → String → ℚ))
    (query : String) (docs : List Doc) :
    ((rerankByCrossencoder ceModel query docs).map stripDoc).Perm
      (docs.map stripDoc) := by
  unfold rerankByCrossencoder
  match ceModel with
  | none => exact rerankByKeyword_perm_strip query docs
  | some ce =>
    refine ((sortByRerankDesc_perm
      (docs.map (ceAug ce query))).map stripDoc).trans ?_
    rw [List.map_map]
    apply List.Perm.of_eq
    apply List.map_congr_left
    intro d _
    exact stripDoc_ceAug ce query d

/-! ### Claim theorems -/

/-- Claim C1: for a non-streaming chat call on a known logical model, when
the first K attempted instances raise and the next instance succeeds,
`ModelRouter.chat` returns that adapter result together with a
failover-event list of exactly K failed events (in attempt order, each
carrying the error message) followed by one success event — length K+1 —
and no instance after the succeeding one is invoked; an instance with no
bound adapter contributes a skipped event and is passed over. -/
theorem chat_failover_first_success :
    (∀ (adapters : String → Option (Except String ChatRes))
       (phys : String → String) (pre : List String) (s : String)
       (rest : List String) (r : ChatRes) (errOf : String → String),
       (∀ n ∈ pre, adapters n = some (Except.error (errOf n))) →
       adapters s = some (Except.ok r) →
       (chatRun adapters phys (pre ++ s :: rest)).outcome = some (r, s, phys s) ∧
       (chatRun adapters phys (pre ++ s :: rest)).events =
         pre.map (fun n => mkFailedEvent n (phys n) (errOf n)) ++
           [mkSuccessEvent s (phys s)] ∧
       (chatRun adapters phys (pre ++ s :: rest)).events.length = pre.length + 1 ∧
       (chatRun adapters phys (pre ++ s :: rest)).invoked = pre ++ [s]) ∧
    (∀ (adapters : String → Option (Except String ChatRes))
       (phys : String → String) (n : String) (rest : List String),
       adapters n = none →
       chatRun adapters phys (n :: rest) =
         { outcome := (chatRun adapters phys rest).outcome
         , events := mkSkippedEvent n :: (chatRun adapters phys rest).events
         , invoked := (chatRun adapters phys rest).invoked
         , lastErr := (chatRun adapters phys rest).lastErr }) := by
  constructor
  · intro a p pre s rest r errOf hfail hs
    obtain ⟨h1, h2, h3⟩ := chatRunAux_fail_prefix a p s rest r errOf hs pre [] [] none hfail
    have h2n : (chatRun a p (pre ++ s :: rest)).events =
        pre.map (fun n => mkFailedEvent n (p n) (errOf n)) ++
          [mkSuccessEvent s (p s)] := by
      simpa [chatRun] using h2
    have h3n : (chatRun a p (pre ++ s :: rest)).invoked = pre ++ [s] := by
      simpa [chatRun] using h3
    refine ⟨by simpa [chatRun] using h1, h2n, ?_, h3n⟩
    rw [h2n]; simp
  · intro a p n rest h
    simp only [chatRun, chatRunAux, h, List.nil_append]
    rw [chatRunAux_acc a p rest [mkSkippedEvent n] [] none]
    simp

/-- Witness for `chat_failover_first_success`: instances `"a"` (fails with
`"ea"`), `"b"` (succeeds), `"c"` (never reached); and a skipped instance
`"z"` with no adapter. -/
theorem chat_failover_first_success_witness :
    ((chatRun wChatAdapters wPhys (["a"] ++ "b" :: ["c"])).outcome =
       some ("r", "b", wPhys "b") ∧
     (chatRun wChatAdapters wPhys (["a"] ++ "b" :: ["c"])).events =
       (["a"] : List String).map
         (fun n => mkFailedEvent n (wPhys n) ((fun _ => "ea") n)) ++
         [mkSuccessEvent "b" (wPhys "b")] ∧
     (chatRun wChatAdapters wPhys (["a"] ++ "b" :: ["c"])).events.length =
       (["a"] : List String).length + 1 ∧
     (chatRun wChatAdapters wPhys (["a"] ++ "b" :: ["c"])).invoked =
       ["a"] ++ ["b"]) ∧
    chatRun wChatAdapters wPhys ("z" :: ["b"]) =
      { outcome := (chatRun wChatAdapters wPhys ["b"]).outcome
      , events := mkSkippedEvent "z" :: (chatRun wChatAdapters wPhys ["b"]).events
      , invoked := (chatRun wChatAdapters wPhys ["b"]).invoked
      , lastErr := (chatRun wChatAdapters wPhys ["b"]).lastErr } := by
  constructor
  · exact chat_failover_first_success.1 wChatAdapters wPhys ["a"] "b" ["c"] "r"
      (fun _ => "ea") (by decide) (by decide)
  · exact chat_failover_first_success.2 wChatAdapters wPhys "z" ["b"] (by decide)

/-- Claim C2 counterexample: one instance, which fails.  The claim predicts
a persisted failure CallRecord whose failover-event list has length N = 1,
but the record the monitor writes on the failure path carries no
failover-event list at all (the column stays `None`): the single persisted
record maps to `failover_events = none`, not to a one-element list. -/
theorem chat_all_failed_record_counterexample :
    ((monitoredChat wFailAdapters wPhysM ["a"] saveOk).2.map
      (fun lg => lg.failover_events)) = [none] ∧
    ((monitoredChat wFailAdapters wPhysM ["a"] saveOk).2.map
      (fun lg => lg.status)) = ["failure"] ∧
    (monitoredChat wFailAdapters wPhysM ["a"] saveOk).1 =
      CallOutcome.err (mkAllFailedMsg (some "e1")) := by decide

/-- Claim C2 (amended): when all N instances of a non-streaming chat call
fail, `chat` raises the all-instances-failed error carrying the last
instance's error, and the monitor persists exactly one terminal CallRecord
with `status = "failure"`; that record's `failover_events` column is left
`None` — the length-N event list stays inside the router and is not
persisted. -/
theorem chat_all_failed_monitor_amended
    (adapters : String → Option (Except String ChatRes)) (phys : String → String)
    (names : List String) (nlast : String) (errOf : String → String)
    (save : LogsRec → Option String)
    (hfail : ∀ n ∈ names ++ [nlast], adapters n = some (Except.error (errOf n)))
    (hsave : ∀ lg, save lg = none) :
    monitoredChat adapters phys (names ++ [nlast]) save =
      (CallOutcome.err (mkAllFailedMsg (some (errOf nlast))),
        [mkFailureRec false (mkAllFailedMsg (some (errOf nlast)))]) ∧
    (mkFailureRec false (mkAllFailedMsg (some (errOf nlast)))).status = "failure" ∧
    (mkFailureRec false (mkAllFailedMsg (some (errOf nlast)))).failover_events
      = none ∧
    (chatRun adapters phys (names ++ [nlast])).events.length =
      (names ++ [nlast]).length := by
  have hrun := chatRunAux_all_fail adapters phys errOf names nlast [] [] none hfail
  refine ⟨?_, rfl, rfl, ?_⟩
  · simp [monitoredChat, monitorChatRun, chatCallOutcome, chatRun, hrun, hsave]
  · simp [chatRun, hrun]

/-- Witness for `chat_all_failed_monitor_amended` with two failing
instances and persistence that succeeds. -/
theorem chat_all_failed_monitor_amended_witness :
    (monitoredChat wFailAdapters wPhysM (["a"] ++ ["b"]) saveOk =
      (CallOutcome.err (mkAllFailedMsg (some (wErrOf "b"))),
        [mkFailureRec false (mkAllFailedMsg (some (wErrOf "b")))]) ∧
    (mkFailureRec false (mkAllFailedMsg (some (wErrOf "b")))).status = "failure" ∧
    (mkFailureRec false (mkAllFailedMsg (some (wErrOf "b")))).failover_events
      = none ∧
    (chatRun wFailAdapters wPhysM (["a"] ++ ["b"])).events.length =
      ((["a"] : List String) ++ ["b"]).length) :=
  chat_all_failed_monitor_amended wFailAdapters wPhysM ["a"] "b" wErrOf saveOk
    (by decide) (fun _ => rfl)

/-- Claim C3 counterexample: instance `"i1"` yields a chunk to the caller
and then fails mid-stream; the claim predicts a terminal stream error with
no further instance invoked, but the generator catches the mid-stream
exception, fails over, invokes `"i2"`, forwards its chunk too, and
terminates normally — the caller sees chunks from both instances and no
error. -/
theorem stream_midstream_failover_counterexample :
    (streamRun wStreamAdapters wPhysM ["i1", "i2"]).invoked = ["i1", "i2"] ∧
    (streamRun wStreamAdapters wPhysM ["i1", "i2"]).errorOut = none ∧
    (streamRun wStreamAdapters wPhysM ["i1", "i2"]).chunks = ["a", "b"] ∧
    (streamRun wStreamAdapters wPhysM ["i1", "i2"]).events =
      [mkSuccessEvent "i1" "m", mkFailedEvent "i1" "m" "boom",
       mkSuccessEvent "i2" "m"] := by decide

/-- Claim C3 (amended): a mid-stream failure — even after the first chunk
has been forwarded — is treated like any other instance failure: a failed
event is appended (after the success event recorded at stream setup) and
the next instance is attempted; chunks already forwarded are retained, so
the caller's stream may interleave chunks of several instances; a terminal
stream error is raised only once every instance is exhausted. -/
theorem stream_failover_after_first_chunk_amended :
    (∀ (adapters : String → Option StreamBeh) (phys : String → String)
       (n1 n2 : String) (cs1 : List String) (e : String) (cs2 : List String),
       adapters n1 = some (.run cs1 (some e)) →
       adapters n2 = some (.run cs2 none) →
       streamRun adapters phys [n1, n2] =
         { chunks := cs1 ++ cs2
         , events := [mkSuccessEvent n1 (phys n1), mkFailedEvent n1 (phys n1) e,
                      mkSuccessEvent n2 (phys n2)]
         , invoked := [n1, n2]
         , errorOut := none }) ∧
    (∀ (adapters : String → Option StreamBeh) (phys : String → String)
       (n : String) (cs : List String) (e : String),
       adapters n = some (.run cs (some e)) →
       streamRun adapters phys [n] =
         { chunks := cs
         , events := [mkSuccessEvent n (phys n), mkFailedEvent n (phys n) e]
         , invoked := [n]
         , errorOut := some (mkStreamAllFailedMsg (some e)) }) := by
  constructor
  · intro a p n1 n2 cs1 e cs2 h1 h2
    simp [streamRun, streamRunAux, h1, h2]
  · intro a p n cs e h
    simp [streamRun, streamRunAux, h]

/-- Witness for `stream_failover_after_first_chunk_amended` at the concrete
two-instance configuration, and at `"i1"` alone. -/
theorem stream_failover_after_first_chunk_amended_witness :
    (streamRun wStreamAdapters wPhysM ["i1", "i2"] =
      { chunks := ["a"] ++ ["b"]
      , events := [mkSuccessEvent "i1" (wPhysM "i1"),
                   mkFailedEvent "i1" (wPhysM "i1") "boom",
                   mkSuccessEvent "i2" (wPhysM "i2")]
      , invoked := ["i1", "i2"]
      , errorOut := none }) ∧
    (streamRun wStreamAdapters wPhysM ["i1"] =
      { chunks := ["a"]
      , events := [mkSuccessEvent "i1" (wPhysM "i1"),
                   mkFailedEvent "i1" (wPhysM "i1") "boom"]
      , invoked := ["i1"]
      , errorOut := some (mkStreamAllFailedMsg (some "boom")) }) :=
  ⟨stream_failover_after_first_chunk_amended.1 wStreamAdapters wPhysM "i1" "i2"
      ["a"] "boom" ["b"] (by decide) (by decide),
   stream_failover_after_first_chunk_amended.2 wStreamAdapters wPhysM "i1"
      ["a"] "boom" (by decide)⟩

/-- The retry count at every cycle entry stays at or below the cap. -/
theorem retryAt_le_max (env : EvalEnv) : ∀ n, retryAt env n ≤ MAX_RETRY := by
  intro n
  induction n with
  | zero => simp [retryAt, MAX_RETRY]
  | succ m ih =>
    rw [retryAt, classifyRetryOut_eq]
    exact rag_evaluation_node_retry_le _ _ _ ih

/-- While every cycle keeps answering `rewrite`, the retry count counts the
cycles exactly. -/
theorem retryAt_of_all_rewrite (env : EvalEnv) :
    ∀ n, (∀ k, k < n → resultAt env k = .rewrite) → retryAt env n = n := by
  intro n
  induction n with
  | zero => simp [retryAt]
  | succ m ih =>
    intro h
    have hm : retryAt env m = m := ih (fun k hk => h k (Nat.lt_succ_of_lt hk))
    have hr : (rag_evaluation_node (env m).1 (retryAt env m) (env m).2).evaluation_result
        = .rewrite := h m (Nat.lt_succ_self m)
    obtain ⟨-, heq⟩ := rag_evaluation_node_rewrite_inv (env m).1 (retryAt env m) (env m).2 hr
    rw [retryAt, classifyRetryOut_eq, heq, hm]

/-- Claim C4: for every environment behaviour — any retrieval outcome
(including repeatedly empty document sets) and any evaluator behaviour
(including one that always answers "rewrite") — the resolver's retry count
never exceeds `MAX_RETRY = 2`; once it has reached `MAX_RETRY` the
evaluation step is forced to `pass`; and the Evaluate-to-Classify loop can
run at most `MAX_RETRY` rewrite cycles. -/
theorem retry_count_bounded (env : EvalEnv) (n : Nat) :
    retryAt env n ≤ MAX_RETRY ∧
    (MAX_RETRY ≤ retryAt env n → resultAt env n = .pass) ∧
    ((∀ k, k < n → resultAt env k = .rewrite) → n ≤ MAX_RETRY) := by
  refine ⟨retryAt_le_max env n, ?_, ?_⟩
  · intro h
    exact rag_evaluation_node_cap _ _ _ h
  · intro h
    rw [← retryAt_of_all_rewrite env n h]
    exact retryAt_le_max env n

/-- Witness for `retry_count_bounded`: with always-empty retrieval the
retry count reaches the cap after two rewrite cycles and the third
evaluation is forced to `pass`. -/
theorem retry_count_bounded_witness :
    resultAt envAlwaysEmpty 2 = .pass ∧ (2 : Nat) ≤ MAX_RETRY :=
  ⟨(retry_count_bounded envAlwaysEmpty 2).2.1 (by decide),
   (retry_count_bounded envAlwaysEmpty 2).2.2 (by decide)⟩

/-- Claim C5 (code bug evaluation): `ModelRouter.embed` does try instances
in order and return the first success, but when every instance fails the
function does not raise the all-instances-failed error: the adapter errors
are swallowed by the inner `try`, the loop completes, the outer dead
`except:` never fires, and the call returns Python `None` — modelled here
as the run evaluating to `none` rather than an error value. -/
theorem embed_all_failed_returns_none :
    embedRun wFailAdapters (fun _ => some "m1") ["a", "b"] = none ∧
    embedRun wChatAdapters (fun _ => some "m1") ["a", "b"] = some "r" := by decide

/-- Claim C7 (code bug evaluation): at a state still carrying retrieval and
evaluation intermediates, `end_node` — a terminal transition — clears only
`query_classification`, `retry_count` and `original_query`; the returned
state still leaks `rewritten_query`, `retrieved_docs`, `retrieval_score`,
`evaluation_result` and `evaluation_reason`, unlike the generate/web-search
terminal update, which clears all eight intermediate fields. -/
theorem end_node_leaks_intermediates :
    (end_node c7state).query_classification = none ∧
    (end_node c7state).retry_count = none ∧
    (end_node c7state).original_query = none ∧
    (end_node c7state).rewritten_query = some "玛修的宝具" ∧
    (end_node c7state).retrieved_docs ≠ none ∧
    (end_node c7state).retrieval_score ≠ none ∧
    (end_node c7state).evaluation_result ≠ none ∧
    (end_node c7state).evaluation_reason ≠ none ∧
    (terminalClearUpdate c7state "答案").rewritten_query = none ∧
    (terminalClearUpdate c7state "答案").retrieved_docs = none ∧
    (terminalClearUpdate c7state "答案").retrieval_score = none ∧
    (terminalClearUpdate c7state "答案").evaluation_result = none ∧
    (terminalClearUpdate c7state "答案").evaluation_reason = none := by decide

/-- Claim C6 counterexample: two documents with rerank scores 0 and 1 (in
that order).  The source's distribution factor is `min((top - mean rest) *
2, 1)` with no lower clamp at 0, so it evaluates to -2 and the quality
score is -1/50; the claim's formula, whose distribution term is clamped to
[0, 1], gives 19/50.  The two formulas disagree. -/
theorem quality_formula_counterexample :
    calculate_retrieval_quality [docLow, docHigh] = -1/50 ∧
    specQuality [docLow, docHigh] = 19/50 ∧
    calculate_retrieval_quality [docLow, docHigh] ≠ specQuality [docLow, docHigh] := by
  refine ⟨?_, ?_, ?_⟩ <;>
    norm_num [calculate_retrieval_quality, specQuality, meanScore, countFactor,
      distFactor, docKey, docLow, docHigh]

/-- Claim C6 (amended): `calculate_retrieval_quality` returns 0 on the
empty list and otherwise `0.6 * mean(score) + 0.2 * min(count/5, 1) + 0.2 *
dist` where `dist = min((top - mean rest) * 2, 1)` is clamped only from
above (it coincides with the spec's doubly-clamped formula exactly when the
top-minus-rest gap is non-negative, and is 1 for a single document); the
result is monotonically non-decreasing in the mean score when the document
count and the distribution factor are held fixed. -/
theorem quality_formula_amended :
    calculate_retrieval_quality [] = 0 ∧
    (∀ docs : List Doc, 0 ≤ distFactor docs →
      calculate_retrieval_quality docs = specQuality docs) ∧
    (∀ d1 d2 : List Doc, d1.length = d2.length → distFactor d1 = distFactor d2 →
      meanScore d1 ≤ meanScore d2 →
      calculate_retrieval_quality d1 ≤ calculate_retrieval_quality d2) := by
  refine ⟨by simp [calculate_retrieval_quality], ?_, ?_⟩
  · intro docs h
    match docs with
    | [] => simp [calculate_retrieval_quality, specQuality]
    | [d] => simp [calculate_retrieval_quality, specQuality, distFactor]
    | d :: e :: es =>
      simp only [distFactor, List.map_cons] at h
      simp only [calculate_retrieval_quality, specQuality, distFactor,
        List.map_cons, List.isEmpty_cons, Bool.false_eq_true, if_false]
      rw [max_eq_right h]
  · intro d1 d2 hlen hdist hmean
    match d1, d2 with
    | [], [] => simp
    | [], _ :: _ => simp at hlen
    | _ :: _, [] => simp at hlen
    | a :: l1, b :: l2 =>
      have hcount : countFactor (a :: l1) = countFactor (b :: l2) := by
        simp [countFactor, hlen]
      simp only [calculate_retrieval_quality, List.isEmpty_cons,
        Bool.false_eq_true, if_false]
      rw [hcount, hdist]
      have h6 : (0 : ℚ) < 6/10 := by norm_num
      nlinarith [hmean]

/-- Witness for `quality_formula_amended`: the spec agreement at a
single-document list and the monotonicity at two one-document lists. -/
theorem quality_formula_amended_witness :
    calculate_retrieval_quality [lowDoc] = specQuality [lowDoc] ∧
    calculate_retrieval_quality [docLow] ≤ calculate_retrieval_quality [docHigh] :=
  ⟨quality_formula_amended.2.1 [lowDoc] (by decide),
   quality_formula_amended.2.2 [docLow] [docHigh] (by decide) (by decide)
     (by norm_num [meanScore, docKey, docLow, docHigh])⟩

/-- Claim C8 counterexample: one document with quality 3/10 ≤ 0.6 and no
retries used; the claim's threshold fallback would rewrite and retry, but
on a JSON parse failure of the evaluator's verdict the source defaults to
an unconditional `pass`. -/
theorem eval_parse_failure_counterexample :
    (rag_evaluation_node [lowDoc] 0 .parseError).evaluation_result = .pass ∧
    calculate_retrieval_quality [lowDoc] = 3/10 ∧
    0 < MAX_RETRY := by
  refine ⟨by decide, ?_, by decide⟩
  norm_num [calculate_retrieval_quality, meanScore, countFactor, distFactor,
    docKey, lowDoc]

/-- Claim C8 (amended): when the evaluator's verdict is not parseable as
JSON the evaluation defaults to `pass` unconditionally; the numeric
threshold fallback — pass exactly when the quality score exceeds 0.6 or the
retry limit has been reached, otherwise rewrite and retry — applies when
the evaluator LLM call itself fails. -/
theorem eval_parse_fallback_amended :
    (∀ (docs : List Doc) (r : Nat), docs ≠ [] →
      (rag_evaluation_node docs r .parseError).evaluation_result = .pass) ∧
    (∀ (docs : List Doc) (r : Nat), docs ≠ [] →
      ((rag_evaluation_node docs r .callError).evaluation_result = .pass ↔
        (6/10 < calculate_retrieval_quality docs ∨ MAX_RETRY ≤ r))) := by
  constructor
  · intro docs r h
    have hne : docs.isEmpty = false := by simpa [List.isEmpty_iff] using h
    simp [rag_evaluation_node, hne]
  · intro docs r h
    have hne : docs.isEmpty = false := by simpa [List.isEmpty_iff] using h
    simp only [rag_evaluation_node, hne, Bool.false_eq_true, if_false]
    split_ifs with h1 h2 <;> simp_all

/-- Witness for `eval_parse_fallback_amended` at one low-quality document. -/
theorem eval_parse_fallback_amended_witness :
    (rag_evaluation_node [lowDoc] 1 .parseError).evaluation_result = .pass ∧
    ((rag_evaluation_node [lowDoc] 2 .callError).evaluation_result = .pass ↔
      (6/10 < calculate_retrieval_quality [lowDoc] ∨ MAX_RETRY ≤ 2)) :=
  ⟨eval_parse_fallback_amended.1 [lowDoc] 1 (by decide),
   eval_parse_fallback_amended.2 [lowDoc] 2 (by decide)⟩

/-- Claim C9 counterexample: the wrapped router call succeeds, but
persisting the success record raises; the outer handler catches that
persistence error, its own failure-record write raises too, and the
persistence error — not the successful result — reaches the caller. -/
theorem monitor_shadowing_counterexample :
    cexRunOk.outcome = some ("r", "i", "m") ∧
    (monitorChatRun saveAlwaysFail cexRunOk).1 = CallOutcome.err "db down" ∧
    (monitorChatRun saveAlwaysFail cexRunOk).2 = [] := by decide

/-- Claim C9 (amended): the monitor is transparent only when persistence
succeeds.  With persistence OK, a successful call returns the router tuple
and writes one success record, and a failed call re-raises the original
router error after writing one failure record; but when persisting the
success record fails, the persistence error is caught by the failure
handler, a failure record is written, and the persistence error is raised
to the caller — shadowing the successful router outcome. -/
theorem monitor_error_paths_amended :
    (∀ (run : ChatRun) (save : LogsRec → Option String)
       (t : ChatRes × String × String),
       run.outcome = some t →
       save (mkSuccessRec run.events) = none →
       (monitorChatRun save run).1 =
         CallOutcome.ok (t.1, t.2.1, t.2.2, run.events) ∧
       (monitorChatRun save run).2 = [mkSuccessRec run.events]) ∧
    (∀ (run : ChatRun) (save : LogsRec → Option String)
       (t : ChatRes × String × String) (e1 : String),
       run.outcome = some t →
       save (mkSuccessRec run.events) = some e1 →
       save (mkFailureRec false e1) = none →
       (monitorChatRun save run).1 = CallOutcome.err e1 ∧
       (monitorChatRun save run).2 = [mkFailureRec false e1]) ∧
    (∀ (run : ChatRun) (save : LogsRec → Option String),
       run.outcome = none →
       save (mkFailureRec false (mkAllFailedMsg run.lastErr)) = none →
       (monitorChatRun save run).1 =
         CallOutcome.err (mkAllFailedMsg run.lastErr) ∧
       (monitorChatRun save run).2 =
         [mkFailureRec false (mkAllFailedMsg run.lastErr)]) := by
  refine ⟨?_, ?_, ?_⟩
  · intro run save t hout hsave
    obtain ⟨r, i, p⟩ := t
    simp [monitorChatRun, chatCallOutcome, hout, hsave]
  · intro run save t e1 hout hs1 hs2
    obtain ⟨r, i, p⟩ := t
    simp [monitorChatRun, chatCallOutcome, hout, hs1, hs2]
  · intro run save hout hsave
    simp [monitorChatRun, chatCallOutcome, hout, hsave]

/-- Witness for `monitor_error_paths_amended` on the three concrete
persistence scenarios. -/
theorem monitor_error_paths_amended_witness :
    ((monitorChatRun saveOk cexRunOk).1 =
       CallOutcome.ok ("r", "i", "m", cexRunOk.events) ∧
     (monitorChatRun saveOk cexRunOk).2 = [mkSuccessRec cexRunOk.events]) ∧
    ((monitorChatRun saveFailOnSuccessRec cexRunOk).1 =
       CallOutcome.err "db down" ∧
     (monitorChatRun saveFailOnSuccessRec cexRunOk).2 =
       [mkFailureRec false "db down"]) ∧
    ((monitorChatRun saveOk cexRunFail).1 =
       CallOutcome.err (mkAllFailedMsg cexRunFail.lastErr) ∧
     (monitorChatRun saveOk cexRunFail).2 =
       [mkFailureRec false (mkAllFailedMsg cexRunFail.lastErr)]) :=
  ⟨monitor_error_paths_amended.1 cexRunOk saveOk ("r", "i", "m")
     (by decide) (by decide),
   monitor_error_paths_amended.2.1 cexRunOk saveFailOnSuccessRec
     ("r", "i", "m") "db down" (by decide) (by decide) (by decide),
   monitor_error_paths_amended.2.2 cexRunFail saveOk (by decide) (by decide)⟩

/-- The keyword reranker's output is in non-increasing rerank-key order. -/
theorem rerankByKeyword_sorted (query : String) (docs : List Doc) :
    SortedDescByKey (rerankByKeyword query docs) :=
  sortByRerankDesc_sorted _

/-- The cross-encoder reranker's output is in non-increasing rerank-key
order (also through the keyword fallback). -/
theorem rerankByCrossencoder_sorted (ceModel : Option (String → String → ℚ))
    (query : String) (docs : List Doc) :
    SortedDescByKey (rerankByCrossencoder ceModel query docs) := by
  cases ceModel with
  | none => exact rerankByKeyword_sorted query docs
  | some ce => exact sortByRerankDesc_sorted _

/-- Claim C10 counterexample: with `method = "score"` the source returns
the input list untouched, so an input whose rerank scores ascend is
returned unsorted — the claim's "sorted in non-increasing order of
rerank_score ... under any method" fails. -/
theorem rerank_score_method_unsorted_counterexample :
    rerank none "q" [docLow, docHigh] "score" = [docLow, docHigh] ∧
    ¬ SortedDescByKey [docLow, docHigh] := by
  constructor
  · decide
  · norm_num [SortedDescByKey, List.chain'_cons, List.chain'_singleton,
      docKey, docLow, docHigh]

/-- Claim C10 (amended): `RAGRetriever.rerank` never drops, duplicates or
invents a document — under every method the output is a permutation of the
input in which only the `ce_score` / `rerank_score` fields may have been
(re)written — and the empty list maps to the empty list; the output is
sorted in non-increasing rerank-score order for the `"crossencoder"` and
`"keyword"` methods (including the keyword fallback), while `"score"` and
unknown methods return the input unchanged (hence not necessarily
sorted). -/
theorem rerank_perm_sorted_amended :
    (∀ (ceModel : Option (String → String → ℚ)) (q : String) (docs : List Doc)
       (method : String),
       ((rerank ceModel q docs method).map stripDoc).Perm (docs.map stripDoc)) ∧
    (∀ (ceModel : Option (String → String → ℚ)) (q : String) (docs : List Doc)
       (method : String),
       method = "crossencoder" ∨ method = "keyword" →
       SortedDescByKey (rerank ceModel q docs method)) ∧
    (∀ (ceModel : Option (String → String → ℚ)) (q : String) (method : String),
       rerank ceModel q [] method = []) ∧
    (∀ (ceModel : Option (String → String → ℚ)) (q : String) (docs : List Doc)
       (method : String),
       method ≠ "crossencoder" → method ≠ "keyword" →
       rerank ceModel q docs method = docs) := by
  refine ⟨?_, ?_, ?_, ?_⟩
  · intro ce q docs method
    by_cases hd : docs.isEmpty
    · rw [List.isEmpty_iff.mp hd]
      simp [rerank]
    · by_cases m1 : method = "crossencoder"
      · simpa [rerank, hd, m1] using rerankByCrossencoder_perm_strip ce q docs
      · by_cases m2 : method = "keyword"
        · simpa [rerank, hd, m1, m2] using rerankByKeyword_perm_strip q docs
        · simp [rerank, hd, m1, m2]
  · intro ce q docs method hm
    by_cases hd : docs.isEmpty
    · simp [rerank, hd, SortedDescByKey]
    · rcases hm with hm | hm <;> subst hm
      · simpa [rerank, hd] using rerankByCrossencoder_sorted ce q docs
      · simpa [rerank, hd] using rerankByKeyword_sorted q docs
  · intro ce q method
    simp [rerank]
  · intro ce q docs method m1 m2
    by_cases hd : docs.isEmpty
    · rw [List.isEmpty_iff.mp hd]
      simp [rerank]
    · simp [rerank, hd, m1, m2]

/-- Witness for `rerank_perm_sorted_amended` at a concrete two-document
list: keyword rerank is a sorted permutation and the score method returns
the input. -/
theorem rerank_perm_sorted_amended_witness :
    ((rerank none "q" [docLow, docHigh] "keyword").map stripDoc).Perm
      ([docLow, docHigh].map stripDoc) ∧
    SortedDescByKey (rerank none "q" [docLow, docHigh] "keyword") ∧
    rerank none "q" [docLow, docHigh] "score" = [docLow, docHigh] :=
  ⟨rerank_perm_sorted_amended.1 none "q" [docLow, docHigh] "keyword",
   rerank_perm_sorted_amended.2.1 none "q" [docLow, docHigh] "keyword"
     (Or.inr rfl),
   rerank_perm_sorted_amended.2.2.2 none "q" [docLow, docHigh] "score"
     (by decide) (by decide)⟩
